import Mathlib

/-!
Verification of a static blog content pipeline: a Markdown-variant compiler
configuration (`mdsvex.config.js`), a utility-CSS theme/purge configuration
(`tailwind.config.cjs`), and one content document
(`src/lib/posts/magical-fetch-react.svx`).

The two configuration records and the document are embedded directly from the
source files.  The compiler, layout renderer and purge pass themselves are not
part of the repository (they are external build tools the configuration is fed
to), so their behaviour is modelled from the specification, and each such
definition carries a doc comment saying so.
-/

/-- A block node of a compiled content tree: paragraph, heading, fenced code
block (language tag and verbatim text), image, or thematic break. -/
inductive Block where
  | para (text : String)
  | heading (level : Nat) (text : String)
  | code (lang : String) (text : String)
  | image (alt : String) (url : String)
  | rule
deriving DecidableEq

/-- A content document: identifier (file path), front-matter key/value
metadata, and a body of block nodes. -/
structure Document where
  path : String
  frontMatter : List (String × String)
  body : List Block
deriving DecidableEq

/-- The theme section of `tailwind.config.cjs`: the named color tokens. -/
structure Theme where
  colors : List (String × String)
deriving DecidableEq

/-- The shape of `tailwind.config.cjs`. -/
structure TailwindConfig where
  mode : String
  purge : List String
  theme : Theme
deriving DecidableEq

/-- Embedding of `tailwind.config.cjs`. -/
def tailwindConfig : TailwindConfig :=
  { mode := "jit"
    purge := ["./src/**/*.svelte"]
    theme := { colors :=
      [("black", "#000"),
       ("white", "#fff"),
       ("blue", "#1985A1"),
       ("accented-black", "#111")] } }

/-- The smartypants section of `mdsvex.config.js`. -/
structure Smartypants where
  dashes : String
deriving DecidableEq

/-- The shape of `mdsvex.config.js`: recognized extensions, smartypants
options, remark/rehype plugin lists, and the layout component path. -/
structure MdsvexConfig where
  extensions : List String
  smartypants : Smartypants
  remarkPlugins : List (Block → Block)
  rehypePlugins : List (Block → Block)
  layout : String

/-- Embedding of `mdsvex.config.js`. -/
def config : MdsvexConfig :=
  { extensions := [".svelte.md", ".md", ".svx"]
    smartypants := { dashes := "oldschool" }
    remarkPlugins := []
    rehypePlugins := []
    layout := "./src/lib/PostLayout/PostLayout.svelte" }
def magicalFetchDoc : Document :=
  { path := "src/lib/posts/magical-fetch-react.svx"
    frontMatter := [("title", "A magical way to fetch data in React")]
    body := [
      Block.para "If you have ever used React, chances are that you have had to query an API. The importance of data fetching in a website is indispensable. To build a truly delightful experience, you must get your data fetching right. It is critical.",
      Block.para "Let me quickly run you through the traditional approach for querying in React applications. Most of this might seem trivial to you, but it is important that we go through it to see the difference [_react-query_](https://react-query.tanstack.com/) really makes. (it\x27s magic, trust me😉)",
      Block.para "We will use the [JSON Placeholder API](https://jsonplaceholder.typicode.com/guide/) as our source of data. We will primarily be making two types of queries: a list of all posts and an individual post. Let\x27s write a hook to fetch the list of all posts.",
      Block.code "javascript" "const baseUrl = \x27https://jsonplaceholder.typicode.com\x27;\n\nconst usePosts = () => \x7b\n  const [data, setData] = useState();\n\n  useEffect(() => \x7b\n    const fetchData = async () => \x7b\n      const res = await fetch(`$\x7bbaseUrl\x7d/posts`);\n      const posts = await res.json();\n      setData(posts);\n    \x7d;\n    fetchData();\n  \x7d, []);\n\n  return \x7b data \x7d;\n\x7d;",
      Block.para "This should look familiar. You\x27ll notice that we have not handled errors or the loading state. That\x27s bad practice. Let\x27s do that now.",
      Block.code "javascript" "const usePosts = () => \x7b\n  const [data, setData] = useState();\n  const [isLoading, setLoading] = useState(true);\n  const [error, setError] = useState();\n\n  useEffect(() => \x7b\n    const fetchData = async () => \x7b\n      setLoading(true);\n\n      try \x7b\n        const res = await fetch(`$\x7bbaseUrl\x7d/posts`);\n        const posts = await res.json();\n        setData(posts);\n        setLoading(false);\n      \x7d catch (error) \x7b\n        console.log(error);\n        setError(error);\n        setData([]);\n        setLoading(false);\n      \x7d\n    \x7d;\n\n    fetchData();\n  \x7d, []);\n\n  return \x7b data, isLoading, error \x7d;\n\x7d;",
      Block.para "Woah... that certainly was *not* pleasant. 😒 We had to add a ton of code just to make our hook support two simple states. And this query runs... basically every time your component re-renders? This is far from ideal. You deserve better.",
      Block.para "What about background updates? Stale data? Pagination? Programatically re-running queries? ",
      Block.para "Good luck with all that. 🤷‍♂️",
      Block.para "This is where react-query comes to your rescue. Use [this repo](https://github.com/Dhaiwat10/react-query-tutorial) as boilerplate if you want to follow along.",
      Block.para "Let\x27s now re-factor our `usePosts` hook using react-query. If you haven\x27t used react-query before, you\x27re in for a surprise.",
      Block.code "javascript" "// hooks/hooks.js\nconst usePosts = () => \x7b\n  const fetchData = async () => \x7b\n    return fetch(`$\x7bbaseUrl\x7d/posts`).then((r) => r.json());\n  \x7d;\n\n  return useQuery(\x27posts\x27, fetchData);\n\x7d;",
      Block.para "Yeah. That\x27s it. I told you. 😎",
      Block.para "The same can be done for the `usePost` hook.",
      Block.code "javascript" "const usePost = (id) => \x7b\n  const fetchData = async () => \x7b\n    return fetch(`$\x7bbaseUrl\x7d/posts/$\x7bid\x7d`).then((r) => r.json());\n  \x7d;\n\n  return useQuery([\x27post\x27, id], fetchData);\n\x7d;",
      Block.para "This piece of code is all you need to handle everything we handled with the traditional approach — and we\x27re barely scratching the surface. Let\x27s dive deeper. ",
      Block.para "Open the react-query devtools by clicking the icon shown in the screenshot below. Keep it open.",
      Block.image "Open react-query devtools" "https://drive.google.com/uc?export=view&id=1M803MA0DDNvH4kWQuHA0QIaRsrXgsqjx",
      Block.para "Click around the web-app now and keep an eye out on the devtools. You will notice queries being logged as they are executed. It is pretty intuitive.",
      Block.para "I mentioned that react-query can do much more than just manage states like loading, error, etc. Let me walk you through one of those things — query invalidation. In simple words, query invalidation is you telling react-query to consider the respective query \x27stale\x27, and re-run the query. Let\x27s try it out.",
      Block.para "We will be adding a re-fetch button at the top of our list of posts. Needless to say, clicking this button should make our app re-fetch the list of posts. Since we are using react-query for this, this is going to be a piece of cake for us. 😁",
      Block.code "javascript" "// pages/index.js\nimport \x7b useQueryClient \x7d from \x27react-query\x27;\n\nexport default function Home() \x7b\n  const queryClient = useQueryClient();\n\n  const reFetchPosts = () => \x7b\n    queryClient.invalidateQueries(\x27posts\x27);\n  \x7d;\n\n  return (\n    <Container>\n      <Button onClick=\x7breFetchPosts\x7d>Re-fetch</Button>\n      \x7bdata.map((post) => \x7b\n        //...\n      \x7d)\x7d\n    </Container>\n  );\n\x7d",
      Block.para "That is all we need to add. Now try clicking our newly added re-fetch button and keep an eye out on the react-query devtools. You will notice that it re-runs the query as expected. You can also verify this by making use of the Network tab in your browser\x27s devtools.",
      Block.para "In conclusion, we took 27 lines of code, narrowed it down to merely 7 lines, and ended up with more functionalities to work with. That sounds like a good deal to me. 🤝",
      Block.image "Staggering difference." "https://drive.google.com/uc?export=view&id=1wA-iv6NaXBcz93sjsF8i4n0X5STZaPQV",
      Block.para "Staggering. I promised it is magical. 😊",
      Block.para "If you like this article, please follow me here and [on Twitter](https://twitter.com/dhaiwat10). I mostly tweet rants about software & brag about my tiny wins. ⚡",
      Block.para "Please feel free to comment down below to start discussions or ask questions. I will happily answer them. 🤗",
      Block.rule,
      Block.heading 3 "References:",
      Block.para "[Official react-query docs](https://react-query.tanstack.com/overview)",
      Block.para "[All About React Query (with Tanner Linsley) — Learn With Jason](https://www.youtube.com/watch?v=DocXo3gqGdI)",
      Block.para "[React Query - Data Fetching Hooks — Leigh Halliday](https://www.youtube.com/watch?v=OorL3E7oCjA)",
      Block.para "Cover photo by [Simon Berger](https://unsplash.com/photos/MxGPHq_UHaA)"
    ] }

/-- Modelled from the spec: the smartypants cosmetic text substitution (the
compiler itself is not part of the repository).  Straight double quotes become
typographic quotes; runs of dashes become en/em dashes, with the pairing
controlled by the `dashes` mode (the source sets `dashes: 'oldschool'`, where
`--` is an en dash and `---` an em dash; in the default mode `--` is an em
dash). -/
def smartSub (mode : String) : List Char → List Char
  | '-' :: '-' :: '-' :: rest =>
      (if mode == "oldschool" then '—' else '–') :: smartSub mode rest
  | '-' :: '-' :: rest =>
      (if mode == "oldschool" then '–' else '—') :: smartSub mode rest
  | '\x22' :: rest => '”' :: smartSub mode rest
  | c :: rest => c :: smartSub mode rest
  | [] => []

/-- Modelled from the spec: smartypants applied to a whole prose text. -/
def smartypantsText (sp : Smartypants) (s : String) : String :=
  String.mk (smartSub sp.dashes s.data)

/-- Modelled from the spec: the compiler applies the cosmetic transform to
prose text nodes (paragraphs, headings) only; fenced code blocks, images and
thematic breaks pass through verbatim. -/
def applySmartBlock (sp : Smartypants) : Block → Block
  | Block.para t => Block.para (smartypantsText sp t)
  | Block.heading l t => Block.heading l (smartypantsText sp t)
  | Block.code l t => Block.code l t
  | Block.image a u => Block.image a u
  | Block.rule => Block.rule

/-- Modelled from the spec: a plugin list is applied as a sequence of
node-wise transforms over the content tree. -/
def applyPlugins (ps : List (Block → Block)) (l : List Block) : List Block :=
  ps.foldl (fun acc f => acc.map f) l

/-- Compiled content: metadata copied from the front-matter, plus the
transformed content tree. -/
structure CompiledContent where
  metadata : List (String × String)
  content : List Block
deriving DecidableEq

/-- `hasSuffix p s` holds when the path `p` ends with the string `s`. -/
def hasSuffix (p s : String) : Bool :=
  s.data.isSuffixOf p.data

/-- A document is recognized when its path ends with one of the configured
extensions. -/
def recognized (cfg : MdsvexConfig) (path : String) : Bool :=
  cfg.extensions.any (fun e => hasSuffix path e)

/-- Modelled from the spec: the Markdown Compiler (an external build tool not
in the repository).  A document with a recognized extension compiles to
`some` CompiledContent: metadata copied from the front-matter, smartypants
applied to prose nodes, then the remark and rehype plugin lists applied.  A
document with an unrecognized extension yields `none` — it is skipped, no
error is raised (the function is total). -/
def compile (cfg : MdsvexConfig) (d : Document) : Option CompiledContent :=
  if recognized cfg d.path then
    some { metadata := d.frontMatter
           content := applyPlugins cfg.rehypePlugins
             (applyPlugins cfg.remarkPlugins
               (d.body.map (applySmartBlock cfg.smartypants))) }
  else none

/-- Base compilation with no plugin lists applied: smartypants on prose only. -/
def compileBase (d : Document) : Option CompiledContent :=
  if recognized config d.path then
    some { metadata := d.frontMatter
           content := d.body.map (applySmartBlock config.smartypants) }
  else none

/-- The title field of a front-matter record (empty when absent). -/
def getTitle (m : List (String × String)) : String :=
  match m.lookup "title" with
  | some t => t
  | none => ""

/-- A rendered page: the fixed template (the layout component path), the head
title, and the content tree. -/
structure Page where
  template : String
  headTitle : String
  content : List Block
deriving DecidableEq

/-- Modelled from the spec: the Layout Renderer (the layout component is not
in the repository).  It wraps the compiled content in the one fixed template
named by `cfg.layout` and surfaces the metadata title in the page head. -/
def render (cfg : MdsvexConfig) (c : CompiledContent) : Page :=
  { template := cfg.layout
    headTitle := getTitle c.metadata
    content := c.content }

/-- The pages produced by compiling and rendering a list of documents with a
fixed configuration; unrecognized documents produce no page. -/
def pagesOf (cfg : MdsvexConfig) (ds : List Document) : List Page :=
  ds.filterMap (fun d => (compile cfg d).map (render cfg))

/-- Build-time state: the two configuration records loaded once, and the pages
produced so far. -/
structure BuildState where
  tailwind : TailwindConfig
  mdsvex : MdsvexConfig
  pages : List Page

/-- Modelled from the spec: processing one document appends its rendered page
(when its extension is recognized) and touches nothing else. -/
def processDoc (st : BuildState) (d : Document) : BuildState :=
  match compile st.mdsvex d with
  | some c => { st with pages := st.pages ++ [render st.mdsvex c] }
  | none => st

/-- Modelled from the spec: the whole build is a single pass over the document
list. -/
def buildAll (st : BuildState) (ds : List Document) : BuildState :=
  ds.foldl processDoc st

/-- The code blocks of a content tree, as (language, text) pairs, in order. -/
def codeBlocks (l : List Block) : List (String × String) :=
  l.filterMap (fun b =>
    match b with
    | Block.code lang text => some (lang, text)
    | _ => none)

/-- The code blocks of a compiled content tree tagged `javascript`. -/
def jsCodeBlocks (c : CompiledContent) : List (String × String) :=
  (codeBlocks c.content).filter (fun p => p.1 == "javascript")

/-- Modelled from the spec: matching semantics of the one purge glob pattern
`./src/**/*.svelte` declared in `tailwind.config.cjs` (the purge pass is an
external build tool).  `**` matches any directory chain and `*` matches within
a file name, so a path matches exactly when it lies under `./src/` and its
file name ends in `.svelte`. -/
def purgeGlobMatch (p : String) : Bool :=
  "./src/".data.isPrefixOf p.data && ".svelte".data.isSuffixOf p.data

/-- The color token names declared by the theme palette. -/
def paletteNames : List String :=
  tailwindConfig.theme.colors.map Prod.fst

/-- Modelled from the spec: the emission policy of the style pipeline — a
class referencing a color token is emitted only when the token is declared in
the palette. -/
def emitColorClass (t : String) : Bool :=
  decide (t ∈ paletteNames)

/-- The compiled form of the one content document of the repository. -/
def compiledMagical : CompiledContent :=
  (compile config magicalFetchDoc).getD { metadata := [], content := [] }

/-- A second, synthetic document used to exercise order-independence. -/
def plainDoc : Document :=
  { path := "src/lib/posts/notes.md"
    frontMatter := [("title", "Notes")]
    body := [Block.para "hello -- world"] }

/-! ## Helper lemmas -/

/-- The smartypants pass never adds, removes or rewrites a code block: the
(language, text) sequence of a content tree is unchanged by it. -/
theorem codeBlocks_map_smart (sp : Smartypants) : ∀ l : List Block,
    codeBlocks (l.map (applySmartBlock sp)) = codeBlocks l
  | [] => rfl
  | b :: l => by
      cases b <;> simp [codeBlocks, applySmartBlock, List.filterMap_cons] <;>
        simpa [codeBlocks] using codeBlocks_map_smart sp l

/-- Processing one document keeps both configuration records and appends
exactly that document's pages. -/
theorem processDoc_fields (st : BuildState) (d : Document) :
    (processDoc st d).tailwind = st.tailwind ∧ (processDoc st d).mdsvex = st.mdsvex ∧
    (processDoc st d).pages = st.pages ++ pagesOf st.mdsvex [d] := by
  unfold processDoc pagesOf
  cases h : compile st.mdsvex d <;> simp [h]

/-- `pagesOf` distributes over an initial document. -/
theorem pagesOf_cons (cfg : MdsvexConfig) (d : Document) (ds : List Document) :
    pagesOf cfg (d :: ds) = pagesOf cfg [d] ++ pagesOf cfg ds := by
  unfold pagesOf
  cases h : compile cfg d <;> simp [h, List.filterMap_cons]

/-- The whole build keeps both configuration records untouched and its pages
are exactly the initial pages followed by the pages of the processed
documents, all rendered with the one initial configuration. -/
theorem buildAll_spec : ∀ (ds : List Document) (st : BuildState),
    (buildAll st ds).tailwind = st.tailwind ∧ (buildAll st ds).mdsvex = st.mdsvex ∧
    (buildAll st ds).pages = st.pages ++ pagesOf st.mdsvex ds
  | [], st => by simp [buildAll, pagesOf]
  | d :: ds, st => by
      have ih := buildAll_spec ds (processDoc st d)
      have hf := processDoc_fields st d
      have hb : buildAll st (d :: ds) = buildAll (processDoc st d) ds := rfl
      rw [hb]
      refine ⟨ih.1.trans hf.1, ih.2.1.trans hf.2.1, ?_⟩
      rw [ih.2.2, hf.2.2, hf.2.1, List.append_assoc]
      conv_rhs => rw [pagesOf_cons]

/-! ## Claims -/

/-- Claim C1, counterexample: the style configuration does not declare the
glob pattern `./src/**/*`; its purge list is `["./src/**/*.svelte"]`. -/
theorem C1_counterexample : tailwindConfig.purge ≠ ["./src/**/*"] := by decide

/-- Claim C1 (amended): the style configuration declares the glob pattern
`./src/**/*.svelte` for deciding which style rules survive minification, and a
palette of exactly the four color tokens black, white, blue, accented-black;
a class referencing a color token outside these four is not emitted. -/
theorem C1_theorem : tailwindConfig.purge = ["./src/**/*.svelte"] ∧
    paletteNames = ["black", "white", "blue", "accented-black"] ∧
    ∀ t : String, emitColorClass t = true ↔
      (t = "black" ∨ t = "white" ∨ t = "blue" ∨ t = "accented-black") := by
  refine ⟨rfl, rfl, ?_⟩
  intro t
  simp [emitColorClass, paletteNames, tailwindConfig]

/-- Claim C2, counterexample: compiling the document titled "A magical way to
fetch data in React" yields a content tree with five fenced-code nodes of
language `javascript`, not exactly one. -/
theorem C2_counterexample :
    (compile config magicalFetchDoc).map (fun c => (jsCodeBlocks c).length) = some 5 ∧
    (5 : Nat) ≠ 1 := ⟨rfl, by decide⟩

set_option maxRecDepth 4000 in
/-- Claim C2 (amended): the document whose front-matter title is "A magical
way to fetch data in React" compiles to a CompiledContent whose metadata
title equals that exact string and whose content tree contains exactly five
fenced-code nodes with language `javascript`, with the original code text of
every fenced block unchanged. -/
theorem C2_theorem : ∃ c : CompiledContent, compile config magicalFetchDoc = some c ∧
    getTitle c.metadata = "A magical way to fetch data in React" ∧
    (jsCodeBlocks c).length = 5 ∧
    codeBlocks c.content = codeBlocks magicalFetchDoc.body := by
  refine ⟨_, rfl, rfl, rfl, rfl⟩

/-- Claim C3: a document compiles to some CompiledContent exactly when its
path ends in one of the recognized extensions `.svelte.md`, `.md`, `.svx`;
otherwise the (total, Option-valued) compiler yields `none` — no output and
no error. -/
theorem C3_theorem : ∀ d : Document, (compile config d).isSome = true ↔
    (hasSuffix d.path ".svelte.md" = true ∨ hasSuffix d.path ".md" = true ∨
      hasSuffix d.path ".svx" = true) := by
  intro d
  constructor
  · intro h
    by_cases hr : recognized config d.path = true
    · simpa [recognized, config] using hr
    · simp [compile, hr] at h
  · intro h
    have hr : recognized config d.path = true := by
      simp [recognized, config]
      tauto
    simp [compile, hr]

/-- Claim C4: the smartypants transform leaves every fenced code block
untouched, and for every document that compiles, the (language, text)
sequence of fenced code blocks is identical between input and output. -/
theorem C4_theorem : (∀ (sp : Smartypants) (lang text : String),
      applySmartBlock sp (Block.code lang text) = Block.code lang text) ∧
    ∀ (d : Document) (c : CompiledContent), compile config d = some c →
      codeBlocks c.content = codeBlocks d.body := by
  constructor
  · intro sp lang text; rfl
  · intro d c h
    unfold compile at h
    split at h
    · injection h with h
      subst h
      simp [applyPlugins, config]
      exact codeBlocks_map_smart _ d.body
    · exact Option.noConfusion h

set_option maxRecDepth 4000 in
/-- Claim C4, witness: the code blocks of the compiled repository document
equal the code blocks of its source body. -/
theorem C4_witness : codeBlocks compiledMagical.content = codeBlocks magicalFetchDoc.body :=
  C4_theorem.2 magicalFetchDoc compiledMagical rfl

/-- Claim C5: every document that compiles renders to a page whose head title
equals the title field of the document's front-matter. -/
theorem C5_theorem : ∀ (d : Document) (c : CompiledContent), compile config d = some c →
    (render config c).headTitle = getTitle d.frontMatter := by
  intro d c h
  unfold compile at h
  split at h
  · injection h with h; subst h; rfl
  · exact Option.noConfusion h

set_option maxRecDepth 4000 in
/-- Claim C5, witness: the rendered page of the repository document carries
its front-matter title in the head. -/
theorem C5_witness :
    (render config compiledMagical).headTitle = getTitle magicalFetchDoc.frontMatter :=
  C5_theorem magicalFetchDoc compiledMagical rfl

/-- Claim C6: the layout renderer is a pure function (determinism is inherent
in its type); every rendering uses the same single fixed template, and the
output is determined by the metadata title and the content tree alone — no
per-document branching beyond metadata substitution. -/
theorem C6_theorem : (∀ c₁ c₂ : CompiledContent,
      (render config c₁).template = (render config c₂).template) ∧
    (∀ c₁ c₂ : CompiledContent, getTitle c₁.metadata = getTitle c₂.metadata →
      c₁.content = c₂.content → render config c₁ = render config c₂) := by
  constructor
  · intro c₁ c₂; rfl
  · intro c₁ c₂ h₁ h₂; simp [render, h₁, h₂]

/-- Claim C6, witness: two compiled contents differing in metadata beyond the
title render to identical pages. -/
theorem C6_witness :
    render config { metadata := [("title", "t")], content := [] } =
      render config { metadata := [("title", "t"), ("draft", "yes")], content := [] } :=
  C6_theorem.2 _ _ rfl rfl

/-- Claim C7: the configuration records are immutable across the whole build
— after processing any document list both configurations are unchanged, and
every produced page comes from the one initial mdsvex configuration. -/
theorem C7_theorem : ∀ (st : BuildState) (ds : List Document),
    (buildAll st ds).tailwind = st.tailwind ∧ (buildAll st ds).mdsvex = st.mdsvex ∧
    (buildAll st ds).pages = st.pages ++ pagesOf st.mdsvex ds :=
  fun st ds => buildAll_spec ds st

/-- Claim C8: processing is order-independent — permuting the document list
permutes the produced pages, so the set of output pages is the same. -/
theorem C8_theorem : ∀ ds₁ ds₂ : List Document, ds₁.Perm ds₂ →
    (pagesOf config ds₁).Perm (pagesOf config ds₂) := by
  intro ds₁ ds₂ h
  exact h.filterMap _

/-- Claim C8, witness: swapping the two repository documents permutes the
output pages. -/
theorem C8_witness : (pagesOf config [magicalFetchDoc, plainDoc]).Perm
    (pagesOf config [plainDoc, magicalFetchDoc]) :=
  C8_theorem _ _ (List.Perm.swap _ _ _)

/-- Claim C9: the purge glob `./src/**/*.svelte` matches only paths ending in
`.svelte`, and no path ending in a recognized markdown extension
(`.svelte.md`, `.md`, `.svx`) is matched by it. -/
theorem C9_theorem : (∀ p : String, purgeGlobMatch p = true → hasSuffix p ".svelte" = true) ∧
    ∀ (p e : String), e ∈ config.extensions → hasSuffix p e = true →
      purgeGlobMatch p = false := by
  constructor
  · intro p h
    unfold purgeGlobMatch at h
    rw [Bool.and_eq_true] at h
    exact h.2
  · intro p e he h
    by_contra hm
    rw [Bool.not_eq_false] at hm
    unfold purgeGlobMatch at hm
    rw [Bool.and_eq_true] at hm
    have hsv : ".svelte".data <:+ p.data := by
      have h2 := hm.2
      rwa [List.isSuffixOf_iff_suffix] at h2
    have hext : e.data <:+ p.data := by
      unfold hasSuffix at h
      rwa [List.isSuffixOf_iff_suffix] at h
    have htot := List.suffix_or_suffix_of_suffix hext hsv
    simp [config] at he
    rcases he with rfl | rfl | rfl <;> rcases htot with h2 | h2 <;> revert h2 <;> decide

/-- Claim C9, witness: the repository's content document path (a `.svx` file)
is not matched by the purge glob. -/
theorem C9_witness : purgeGlobMatch "src/lib/posts/magical-fetch-react.svx" = false :=
  C9_theorem.2 "src/lib/posts/magical-fetch-react.svx" ".svx" (by decide) (by decide)

/-- Claim C10: the compiler configuration declares empty remark and rehype
plugin lists and smartypants dashes mode `oldschool`, so compilation of every
document coincides with base compilation plus the smartypants substitution
alone. -/
theorem C10_theorem : config.remarkPlugins = [] ∧ config.rehypePlugins = [] ∧
    config.smartypants.dashes = "oldschool" ∧
    ∀ d : Document, compile config d = compileBase d :=
  ⟨rfl, rfl, rfl, fun _ => rfl⟩
